import Mathlib

/-!
Verification of the core edit pipeline of a client-side AI photo editor.

The source has three parts:
 * a service module with `fileToBase64` and `editImageWithAI` (credential
   check, file read, one service call, response interpretation, error
   wrapping);
 * an application module with `handleImageChange` (size/type validation)
   and `handleSubmit` (state updates around one edit call);
 * a display module with `handleDownload` (filename derivation from the
   data URI via a regex on the mime type).

The external service call and the file read are modelled by their
outcomes, passed in as explicit parameters: `editImageWithAI` awaits
exactly one response, so the call is represented by the `Except` value it
settles to. A JavaScript thrown value is either an `Error` carrying a
message or some non-`Error` value.
-/

namespace GenZEdit

/-- A JavaScript thrown value: an `Error` with its message, or any
non-`Error` value (whose identity the code never inspects). -/
inductive Thrown where
  | err (message : String)
  | nonError
deriving DecidableEq, Repr

/-- The `inlineData` of a response part: base64 data plus mime type. -/
structure InlineData where
  data : String
  mimeType : String
deriving DecidableEq, Repr

/-- A content part of a service response; `inlineData` is optional
(`firstPart.inlineData` is truthiness-checked in the source). -/
structure Part where
  inlineData : Option InlineData
  text : Option String
deriving DecidableEq, Repr

/-- The `content` of a candidate: an optional list of parts
(`content?.parts?.[0]` in the source). -/
structure Content where
  parts : Option (List Part)
deriving DecidableEq, Repr

/-- One response candidate: optional content and optional finish reason. -/
structure Candidate where
  content : Option Content
  finishReason : Option String
deriving DecidableEq, Repr

/-- The raw service response consumed by the code:
`response.candidates?.[0]?...`. -/
structure GenResponse where
  candidates : Option (List Candidate)
deriving DecidableEq, Repr

/-- First candidate `response.candidates?.[0]` — the optional-chaining prefix shared by the
image check and the finish-reason check. -/
def firstCandidate (response : GenResponse) : Option Candidate :=
  response.candidates.bind List.head?

/-- First part `response.candidates?.[0]?.content?.parts?.[0]` from the source. -/
def firstPart (response : GenResponse) : Option Part :=
  (((firstCandidate response).bind Candidate.content).bind Content.parts).bind List.head?

/-- JavaScript falsiness of the credential: `!process.env.API_KEY` is true
when the variable is unset or the empty string. -/
def falsyKey (apiKey : Option String) : Bool :=
  match apiKey with
  | none => true
  | some s => s = ""

/-- JavaScript `String.prototype.split(sep)` for a one-character
separator, on the character list of the string. -/
def jsSplit (sep : Char) : List Char → List (List Char)
  | [] => [[]]
  | c :: cs =>
    if c = sep then [] :: jsSplit sep cs
    else
      match jsSplit sep cs with
      | [] => [[c]]
      | g :: gs => (c :: g) :: gs

/-- A JavaScript `WhiteSpace` or `LineTerminator` character, the set
`String.prototype.trim` strips. -/
def isJSWhitespace (c : Char) : Bool :=
  [' ', Char.ofNat 9, Char.ofNat 10, Char.ofNat 11, Char.ofNat 12, Char.ofNat 13,
   Char.ofNat 0xa0, Char.ofNat 0x1680, Char.ofNat 0x2000, Char.ofNat 0x2001,
   Char.ofNat 0x2002, Char.ofNat 0x2003, Char.ofNat 0x2004, Char.ofNat 0x2005,
   Char.ofNat 0x2006, Char.ofNat 0x2007, Char.ofNat 0x2008, Char.ofNat 0x2009,
   Char.ofNat 0x200a, Char.ofNat 0x2028, Char.ofNat 0x2029, Char.ofNat 0x202f,
   Char.ofNat 0x205f, Char.ofNat 0x3000, Char.ofNat 0xfeff].contains c

/-- JavaScript `String.prototype.trim`: strip whitespace from both
ends. -/
def jsTrim (s : String) : String :=
  String.mk (((s.data.dropWhile isJSWhitespace).reverse.dropWhile isJSWhitespace).reverse)

/-- A `File` object as the pipeline sees it: declared media type, size in
bytes, and the outcome of `FileReader.readAsDataURL` (the data-URL string
on load, the rejection value on error). -/
structure JSFile where
  type : String
  size : Nat
  dataUrlRead : Except Thrown String
deriving Repr

/-- The helper `fileToBase64`: resolves `(reader.result as string).split(',')[1]` on
load, rejects with the reader's error otherwise. -/
def fileToBase64 (file : JSFile) : Except Thrown String :=
  file.dataUrlRead.map (fun s => String.mk ((jsSplit ',' s.data).getD 1 []))

/-- Response interpretation, lines 50–61 of the service module: first the
inline-image check on the first candidate's first part, then the
`finishReason === 'SAFETY'` check, else the generic no-image error. -/
def interpret (response : GenResponse) : Except Thrown String :=
  match (firstPart response).bind Part.inlineData with
  | some d => Except.ok ("data:" ++ d.mimeType ++ ";base64," ++ d.data)
  | none =>
    if (firstCandidate response).bind Candidate.finishReason = some "SAFETY" then
      Except.error (Thrown.err "The request was blocked for safety reasons. Please adjust your prompt and try again.")
    else
      Except.error (Thrown.err "The AI did not return an image. Please try a different prompt.")

/-- The orchestrator `editImageWithAI`. The one outbound call is modelled by `serviceResp`,
the `Except` outcome it settles to; the request payload built from the
encoded image, media type and prompt does not influence any observable
behaviour of this function beyond being sent. Control flow follows the
source: credential check, `fileToBase64` in its own try/catch, then the
service call and interpretation inside the outer try/catch whose handler
rethrows `Error` values and replaces non-`Error` values with a generic
message. -/
def editImageWithAI (apiKey : Option String) (serviceResp : Except Thrown GenResponse)
    (imageFile : JSFile) (prompt : String) : Except Thrown String :=
  if falsyKey apiKey then
    Except.error (Thrown.err "API_KEY environment variable not set. Please configure it to use the AI features.")
  else
    match fileToBase64 imageFile with
    | Except.error _ =>
        Except.error (Thrown.err "Failed to read image file. It may be corrupted or in an unsupported format.")
    | Except.ok _base64ImageData =>
        let attempt : Except Thrown String :=
          match serviceResp with
          | Except.error e => Except.error e
          | Except.ok response => interpret response
        match attempt with
        | Except.ok v => Except.ok v
        | Except.error (Thrown.err m) => Except.error (Thrown.err m)
        | Except.error Thrown.nonError =>
            Except.error (Thrown.err "An unknown error occurred while communicating with the AI service.")

/-- Outcome of `handleImageChange`'s validation: a runtime-error message,
or the file accepted as the new original image. -/
inductive UploadOutcome where
  | rejected (msg : String)
  | accepted (file : JSFile)
deriving Repr

/-- Validation branch of `handleImageChange` (after the cosmetic delay):
size check first, then the allowed-type check, else accept. -/
def handleImageChange (file : JSFile) : UploadOutcome :=
  if file.size > 4 * 1024 * 1024 then
    UploadOutcome.rejected "Image size exceeds 4MB. Please choose a smaller file."
  else if !(["image/png", "image/jpeg", "image/webp"].contains file.type) then
    UploadOutcome.rejected "Invalid file type. Please upload a PNG, JPG, or WEBP image."
  else
    UploadOutcome.accepted file

/-- The application state fields `handleSubmit` touches. -/
structure AppState where
  editedImageUrl : Option String
  runtimeError : Option String
  isLoading : Bool
deriving DecidableEq, Repr

/-- The submit handler `handleSubmit`: guard on configuration, guard on file/prompt, clear
the result and error, run the edit, record the result or the error
message (`e.message` for an `Error`, a generic text otherwise), and reset
`isLoading` in the `finally`. -/
def handleSubmit (apiKey : Option String) (serviceResp : Except Thrown GenResponse)
    (originalImageFile : Option JSFile) (prompt : String) (s : AppState) : AppState :=
  let isApiConfigured := !falsyKey apiKey
  if !isApiConfigured then s
  else
    match originalImageFile with
    | none => { s with runtimeError := some "Please upload an image and enter a prompt." }
    | some file =>
      if jsTrim prompt = "" then
        { s with runtimeError := some "Please upload an image and enter a prompt." }
      else
        let s1 : AppState :=
          { s with isLoading := true, runtimeError := none, editedImageUrl := none }
        match editImageWithAI apiKey serviceResp file prompt with
        | Except.ok resultUrl =>
            { s1 with editedImageUrl := some resultUrl, isLoading := false }
        | Except.error e =>
            let errorMessage :=
              match e with
              | Thrown.err m => m
              | Thrown.nonError => "An unknown error occurred."
            { s1 with runtimeError := some errorMessage, isLoading := false }

/-- Character class `[a-zA-Z0-9]` of the download regex (ASCII letters and digits). -/
def isAlnum (c : Char) : Bool :=
  (c ≥ 'a' && c ≤ 'z') || (c ≥ 'A' && c ≤ 'Z') || (c ≥ '0' && c ≤ '9')

/-- Character class `[a-zA-Z0-9-.+]` of the download regex: inside the class, `-`, `.`
and `+` are literal characters. -/
def isSubtypeChar (c : Char) : Bool :=
  isAlnum c || c = '-' || c = '.' || c = '+'

/-- A JavaScript line terminator, which `.` in a regex never matches. -/
def isLineTerminator (c : Char) : Bool :=
  c = '\n' || c = '\r' || c = Char.ofNat 0x2028 || c = Char.ofNat 0x2029

/-- Whether a `,` occurs before any line terminator: the `.*,.*` suffix of
the regex `data:([a-zA-Z0-9]+\/[a-zA-Z0-9-.+]+).*,.*` demands a comma
after the captured group on the same line (`.` matches no line
terminator, and neither character class contains `,`, so backtracking the
`+` runs cannot reach any other comma). -/
def commaOnLine : List Char → Bool
  | [] => false
  | c :: cs =>
    if isLineTerminator c then false
    else if c = ',' then true
    else commaOnLine cs

/-- One attempt of the regex at a fixed start position: the literal
`data:`, a maximal nonempty `[a-zA-Z0-9]+` run followed immediately by
`/` (a shorter run would put `/` on an alphanumeric position, so only the
maximal run can match), a maximal nonempty `[a-zA-Z0-9-.+]+` run, and a
comma later on the same line. Returns the captured group. -/
def tryMatchAt : List Char → Option (List Char)
  | 'd' :: 'a' :: 't' :: 'a' :: ':' :: rest =>
    let ty := rest.takeWhile isAlnum
    let rest1 := rest.dropWhile isAlnum
    if ty.isEmpty then none
    else
      match rest1 with
      | '/' :: rest2 =>
        let sub := rest2.takeWhile isSubtypeChar
        let rest3 := rest2.dropWhile isSubtypeChar
        if sub.isEmpty then none
        else if commaOnLine rest3 then some (ty ++ '/' :: sub) else none
      | _ => none
  | _ => none

/-- The call `imageUrl.match(/data:([a-zA-Z0-9]+\/[a-zA-Z0-9-.+]+).*,.*/)`:
leftmost match — try each start position left to right — returning the
first capture group. -/
def findMime : List Char → Option (List Char)
  | [] => none
  | c :: cs =>
    match tryMatchAt (c :: cs) with
    | some g => some g
    | none => findMime cs

/-- The download handler `handleDownload` of the display module, up to the anchor click: the
input is the component's `imageUrl` prop (`null` or a string), the output
the `link.download` filename (`none` when the early return fires). A
successful regex match always has `length > 1` because of the capture
group, so the extension is `group1.split('/')[1]`, else `'png'`. -/
def handleDownload (imageUrl : Option String) : Option String :=
  match imageUrl with
  | none => none
  | some url =>
    if url = "" then none
    else
      let extension :=
        match findMime url.data with
        | some g => String.mk ((jsSplit '/' g).getD 1 [])
        | none => "png"
      some ("genz-hub-edit." ++ extension)

/-! Helper lemmas about the matcher primitives. -/

theorem takeWhile_append_all (p : Char → Bool) (l r : List Char)
    (hl : ∀ c ∈ l, p c = true) (hr : ∀ c, r.head? = some c → p c = false) :
    (l ++ r).takeWhile p = l := by
  induction l with
  | nil =>
    cases r with
    | nil => rfl
    | cons c cs => simp [List.takeWhile_cons, hr c rfl]
  | cons a t ih =>
    have ha : p a = true := hl a (by simp)
    simp only [List.cons_append, List.takeWhile_cons, ha, if_true]
    rw [ih (fun c hc => hl c (by simp [hc]))]

theorem dropWhile_append_all (p : Char → Bool) (l r : List Char)
    (hl : ∀ c ∈ l, p c = true) (hr : ∀ c, r.head? = some c → p c = false) :
    (l ++ r).dropWhile p = r := by
  induction l with
  | nil =>
    cases r with
    | nil => rfl
    | cons c cs => simp [List.dropWhile_cons, hr c rfl]
  | cons a t ih =>
    have ha : p a = true := hl a (by simp)
    simp only [List.cons_append, List.dropWhile_cons, ha, if_true]
    exact ih (fun c hc => hl c (by simp [hc]))

theorem jsSplit_no_sep (sep : Char) (l : List Char) (h : sep ∉ l) :
    jsSplit sep l = [l] := by
  induction l with
  | nil => rfl
  | cons c cs ih =>
    have hc : ¬(c = sep) := fun he => h (he ▸ List.mem_cons_self c cs)
    have hcs := ih (fun hm => h (List.mem_cons_of_mem c hm))
    simp [jsSplit, hc, hcs]

theorem jsSplit_append (sep : Char) (t s : List Char) (ht : sep ∉ t) :
    jsSplit sep (t ++ sep :: s) = t :: jsSplit sep s := by
  induction t with
  | nil => simp [jsSplit]
  | cons c cs ih =>
    have hc : ¬(c = sep) := fun he => ht (he ▸ List.mem_cons_self c cs)
    have hcs := ih (fun hm => ht (List.mem_cons_of_mem c hm))
    simp only [List.cons_append, jsSplit, hc, if_false, List.append_eq]
    rw [hcs]

theorem isEmpty_false_of_ne_nil (l : List Char) (h : l ≠ []) : l.isEmpty = false := by
  cases l with
  | nil => exact absurd rfl h
  | cons a t => rfl

/-- A character accepted by `isAlnum` or `isSubtypeChar` is not `/`, not
`;`, and not a comma; used to split runs at the delimiters of a data
URI. -/
theorem isAlnum_slash : isAlnum ('/' : Char) = false := by decide

theorem isSubtypeChar_slash : isSubtypeChar ('/' : Char) = false := by decide

/-- The regex attempt succeeds on `data:` + alnum run + `/` + subtype-char
run + a remainder that starts outside the subtype class and has a comma
before any line terminator; the captured group is exactly the two runs
around the slash. -/
theorem tryMatchAt_structured (ty sub rest : List Char)
    (hty : ty ≠ []) (hsub : sub ≠ [])
    (h1 : ∀ c ∈ ty, isAlnum c = true)
    (h2 : ∀ c ∈ sub, isSubtypeChar c = true)
    (h3 : ∀ c, rest.head? = some c → isSubtypeChar c = false)
    (h4 : commaOnLine rest = true) :
    tryMatchAt ('d' :: 'a' :: 't' :: 'a' :: ':' :: (ty ++ '/' :: (sub ++ rest)))
      = some (ty ++ '/' :: sub) := by
  have hTW : (ty ++ '/' :: (sub ++ rest)).takeWhile isAlnum = ty := by
    apply takeWhile_append_all _ _ _ h1
    intro c hc
    simp only [List.head?] at hc
    rw [← Option.some_inj.mp hc]
    decide
  have hDW : (ty ++ '/' :: (sub ++ rest)).dropWhile isAlnum = '/' :: (sub ++ rest) := by
    apply dropWhile_append_all _ _ _ h1
    intro c hc
    simp only [List.head?] at hc
    rw [← Option.some_inj.mp hc]
    decide
  have hTW2 : (sub ++ rest).takeWhile isSubtypeChar = sub :=
    takeWhile_append_all _ _ _ h2 h3
  have hDW2 : (sub ++ rest).dropWhile isSubtypeChar = rest :=
    dropWhile_append_all _ _ _ h2 h3
  simp only [tryMatchAt, hTW, hDW, hTW2, hDW2,
    isEmpty_false_of_ne_nil ty hty, isEmpty_false_of_ne_nil sub hsub, h4]
  simp

/-- The leftmost match on a string that starts with such a structured
`data:` URI is found at position zero. -/
theorem findMime_structured (ty sub rest : List Char)
    (hty : ty ≠ []) (hsub : sub ≠ [])
    (h1 : ∀ c ∈ ty, isAlnum c = true)
    (h2 : ∀ c ∈ sub, isSubtypeChar c = true)
    (h3 : ∀ c, rest.head? = some c → isSubtypeChar c = false)
    (h4 : commaOnLine rest = true) :
    findMime ('d' :: 'a' :: 't' :: 'a' :: ':' :: (ty ++ '/' :: (sub ++ rest)))
      = some (ty ++ '/' :: sub) := by
  rw [findMime, tryMatchAt_structured ty sub rest hty hsub h1 h2 h3 h4]

/-! Shared facts about `interpret` and `editImageWithAI`, used by several
claim theorems below. -/

theorem interpret_inline (response : GenResponse) (p : Part) (d : InlineData)
    (hp : firstPart response = some p) (hd : p.inlineData = some d) :
    interpret response = Except.ok ("data:" ++ d.mimeType ++ ";base64," ++ d.data) := by
  unfold interpret
  rw [hp]
  simp [Option.bind, hd]

theorem interpret_not_nonError (response : GenResponse) :
    interpret response ≠ Except.error Thrown.nonError := by
  unfold interpret
  rcases h : (firstPart response).bind Part.inlineData with _ | d
  · by_cases hs : (firstCandidate response).bind Candidate.finishReason = some "SAFETY" <;>
      simp [hs]
  · simp

theorem editImageWithAI_interpret (apiKey : Option String) (response : GenResponse)
    (imageFile : JSFile) (prompt b64 : String)
    (hk : falsyKey apiKey = false) (hr : fileToBase64 imageFile = Except.ok b64) :
    editImageWithAI apiKey (Except.ok response) imageFile prompt = interpret response := by
  unfold editImageWithAI
  rw [hk, hr]
  rcases hi : interpret response with e | v
  · cases e with
    | err m => simp [hi]
    | nonError => exact absurd hi (interpret_not_nonError response)
  · simp [hi]

theorem commaOnLine_base64 (l : List Char) :
    commaOnLine (';' :: 'b' :: 'a' :: 's' :: 'e' :: '6' :: '4' :: ',' :: l) = true := rfl

/-- Evaluation of `handleDownload` on a data URI whose media type splits as an
alphanumeric type, a slash, and a subtype drawn from the accepted
character class, followed by `;base64,` and arbitrary payload text:
the filename extension is exactly the subtype. -/
theorem handleDownload_data_uri (ty sub : List Char) (d : String)
    (hty : ty ≠ []) (hsub : sub ≠ [])
    (h1 : ∀ c ∈ ty, isAlnum c = true)
    (h2 : ∀ c ∈ sub, isSubtypeChar c = true) :
    handleDownload (some ("data:" ++ String.mk ty ++ "/" ++ String.mk sub ++ ";base64," ++ d))
      = some ("genz-hub-edit." ++ String.mk sub) := by
  have hdata : ("data:" ++ String.mk ty ++ "/" ++ String.mk sub ++ ";base64," ++ d).data
      = 'd' :: 'a' :: 't' :: 'a' :: ':' ::
          (ty ++ '/' :: (sub ++ (';' :: 'b' :: 'a' :: 's' :: 'e' :: '6' :: '4' :: ',' :: d.data))) := by
    simp [String.data_append]
  have hne : ("data:" ++ String.mk ty ++ "/" ++ String.mk sub ++ ";base64," ++ d) ≠ "" := by
    intro h
    rw [h] at hdata
    exact absurd hdata (by simp [String.data])
  have hfm : findMime ("data:" ++ String.mk ty ++ "/" ++ String.mk sub ++ ";base64," ++ d).data
      = some (ty ++ '/' :: sub) := by
    rw [hdata]
    exact findMime_structured ty sub _ hty hsub h1 h2
      (fun c hc => by
        simp only [List.head?] at hc
        rw [← Option.some_inj.mp hc]
        decide)
      (commaOnLine_base64 d.data)
  have hnoslash_ty : ('/' : Char) ∉ ty := fun hm => by
    have := h1 _ hm
    rw [isAlnum_slash] at this
    exact Bool.false_ne_true this
  have hnoslash_sub : ('/' : Char) ∉ sub := fun hm => by
    have := h2 _ hm
    rw [isSubtypeChar_slash] at this
    exact Bool.false_ne_true this
  have hsplit : jsSplit '/' (ty ++ '/' :: sub) = [ty, sub] := by
    rw [jsSplit_append '/' ty sub hnoslash_ty, jsSplit_no_sep '/' sub hnoslash_sub]
  simp only [handleDownload, hfm]
  rw [if_neg hne, hsplit]
  rfl

/-! The claim theorems. -/

/-- C1: whenever the first candidate's first content part of the service
response carries inline image data, `interpret` succeeds with exactly
that data and media type packaged as `data:<mediaType>;base64,<data>`,
irrespective of any finish reason (in particular a `SAFETY` one) — the
image-present check runs first. -/
theorem interpret_image_present_wins (response : GenResponse) (p : Part) (d : InlineData)
    (hp : firstPart response = some p) (hd : p.inlineData = some d) :
    interpret response = Except.ok ("data:" ++ d.mimeType ++ ";base64," ++ d.data) :=
  interpret_inline response p d hp hd

theorem interpret_image_present_wins_witness :
    interpret (GenResponse.mk (some [Candidate.mk
        (some (Content.mk (some [Part.mk (some (InlineData.mk "AAA" "image/png")) none])))
        (some "SAFETY")]))
      = Except.ok ("data:" ++ "image/png" ++ ";base64," ++ "AAA") :=
  interpret_image_present_wins
    (GenResponse.mk (some [Candidate.mk
        (some (Content.mk (some [Part.mk (some (InlineData.mk "AAA" "image/png")) none])))
        (some "SAFETY")]))
    (Part.mk (some (InlineData.mk "AAA" "image/png")) none)
    (InlineData.mk "AAA" "image/png") rfl rfl

/-- C2: with an absent (or empty, hence falsy) API key, `editImageWithAI`
fails with the `NotConfigured` message for every file — including one
whose read fails — and every service outcome: the result does not depend
on the file read or on the modelled network call, so the check precedes
both and takes precedence over any other failure. -/
theorem editImageWithAI_not_configured_first (apiKey : Option String)
    (serviceResp : Except Thrown GenResponse) (imageFile : JSFile) (prompt : String)
    (hk : falsyKey apiKey = true) :
    editImageWithAI apiKey serviceResp imageFile prompt
      = Except.error (Thrown.err "API_KEY environment variable not set. Please configure it to use the AI features.") := by
  unfold editImageWithAI
  rw [hk]
  rfl

theorem editImageWithAI_not_configured_first_witness :
    editImageWithAI none (Except.error Thrown.nonError)
        (JSFile.mk "image/png" 100 (Except.error Thrown.nonError)) "add a hat"
      = Except.error (Thrown.err "API_KEY environment variable not set. Please configure it to use the AI features.") :=
  editImageWithAI_not_configured_first none (Except.error Thrown.nonError)
    (JSFile.mk "image/png" 100 (Except.error Thrown.nonError)) "add a hat" rfl

/-- C3: when the service call settles with a failure, `editImageWithAI`
fails with the failure's own message when the thrown value is an `Error`,
and with the generic fallback message otherwise. -/
theorem editImageWithAI_transport_failure (apiKey : Option String) (e : Thrown)
    (imageFile : JSFile) (prompt b64 : String)
    (hk : falsyKey apiKey = false) (hr : fileToBase64 imageFile = Except.ok b64) :
    editImageWithAI apiKey (Except.error e) imageFile prompt
      = Except.error (Thrown.err (match e with
          | Thrown.err m => m
          | Thrown.nonError => "An unknown error occurred while communicating with the AI service.")) := by
  cases e <;> simp [editImageWithAI, hk, hr]

theorem editImageWithAI_transport_failure_witness :
    editImageWithAI (some "k") (Except.error (Thrown.err "fetch failed"))
        (JSFile.mk "image/png" 100 (Except.ok "data:image/png;base64,QUJD")) "add a hat"
      = Except.error (Thrown.err "fetch failed")
    ∧ editImageWithAI (some "k") (Except.error Thrown.nonError)
        (JSFile.mk "image/png" 100 (Except.ok "data:image/png;base64,QUJD")) "add a hat"
      = Except.error (Thrown.err "An unknown error occurred while communicating with the AI service.") :=
  ⟨editImageWithAI_transport_failure (some "k") (Thrown.err "fetch failed")
      (JSFile.mk "image/png" 100 (Except.ok "data:image/png;base64,QUJD")) "add a hat" "QUJD" rfl rfl,
   editImageWithAI_transport_failure (some "k") Thrown.nonError
      (JSFile.mk "image/png" 100 (Except.ok "data:image/png;base64,QUJD")) "add a hat" "QUJD" rfl rfl⟩

/-- C4: when the first candidate's first part has no inline image data
but the first candidate's finish reason is the `SAFETY` sentinel,
`interpret` fails with the safety-blocked message, not the no-image
one. -/
theorem interpret_safety_blocked (response : GenResponse)
    (hni : (firstPart response).bind Part.inlineData = none)
    (hs : (firstCandidate response).bind Candidate.finishReason = some "SAFETY") :
    interpret response
      = Except.error (Thrown.err "The request was blocked for safety reasons. Please adjust your prompt and try again.") := by
  unfold interpret
  rw [hni, hs]
  rfl

theorem interpret_safety_blocked_witness :
    interpret (GenResponse.mk (some [Candidate.mk
        (some (Content.mk (some [Part.mk none (some "no can do")])))
        (some "SAFETY")]))
      = Except.error (Thrown.err "The request was blocked for safety reasons. Please adjust your prompt and try again.") :=
  interpret_safety_blocked
    (GenResponse.mk (some [Candidate.mk
        (some (Content.mk (some [Part.mk none (some "no can do")])))
        (some "SAFETY")])) rfl rfl

/-- C5: when the first candidate's first part has no inline image data
and the finish reason is not the `SAFETY` sentinel, `interpret` fails
with the no-image message. -/
theorem interpret_no_image_returned (response : GenResponse)
    (hni : (firstPart response).bind Part.inlineData = none)
    (hs : (firstCandidate response).bind Candidate.finishReason ≠ some "SAFETY") :
    interpret response
      = Except.error (Thrown.err "The AI did not return an image. Please try a different prompt.") := by
  unfold interpret
  rw [hni, if_neg hs]

theorem interpret_no_image_returned_witness :
    interpret (GenResponse.mk (some [Candidate.mk
        (some (Content.mk (some [Part.mk none (some "text only")])))
        (some "STOP")]))
      = Except.error (Thrown.err "The AI did not return an image. Please try a different prompt.") :=
  interpret_no_image_returned
    (GenResponse.mk (some [Candidate.mk
        (some (Content.mk (some [Part.mk none (some "text only")])))
        (some "STOP")])) rfl (by decide)

/-- C6: every file strictly larger than 4 MiB is rejected by
`handleImageChange` with the too-large message, whatever its media type:
the size test precedes the type test, so such a file is never
accepted. -/
theorem handleImageChange_too_large (file : JSFile)
    (h : file.size > 4 * 1024 * 1024) :
    handleImageChange file
      = UploadOutcome.rejected "Image size exceeds 4MB. Please choose a smaller file." := by
  unfold handleImageChange
  rw [if_pos h]

theorem handleImageChange_too_large_witness :
    handleImageChange (JSFile.mk "application/pdf" (4 * 1024 * 1024 + 1) (Except.ok "x"))
      = UploadOutcome.rejected "Image size exceeds 4MB. Please choose a smaller file." :=
  handleImageChange_too_large
    (JSFile.mk "application/pdf" (4 * 1024 * 1024 + 1) (Except.ok "x")) (by decide)

/-- C7: with a configured key and a failing file read, `editImageWithAI`
fails with the read-failure message for every service outcome (so before
any network interaction), and that error differs from the generic
transport fallback, the safety-blocked error and the no-image error. -/
theorem editImageWithAI_read_failure_distinct (apiKey : Option String)
    (serviceResp : Except Thrown GenResponse) (imageFile : JSFile) (prompt : String)
    (e : Thrown) (hk : falsyKey apiKey = false)
    (hr : fileToBase64 imageFile = Except.error e) :
    editImageWithAI apiKey serviceResp imageFile prompt
      = Except.error (Thrown.err "Failed to read image file. It may be corrupted or in an unsupported format.")
    ∧ (Thrown.err "Failed to read image file. It may be corrupted or in an unsupported format."
        ≠ Thrown.err "An unknown error occurred while communicating with the AI service."
      ∧ Thrown.err "Failed to read image file. It may be corrupted or in an unsupported format."
        ≠ Thrown.err "The request was blocked for safety reasons. Please adjust your prompt and try again."
      ∧ Thrown.err "Failed to read image file. It may be corrupted or in an unsupported format."
        ≠ Thrown.err "The AI did not return an image. Please try a different prompt.") := by
  refine ⟨?_, by decide, by decide, by decide⟩
  unfold editImageWithAI
  rw [hk, hr]
  rfl

theorem editImageWithAI_read_failure_distinct_witness :
    editImageWithAI (some "k") (Except.error Thrown.nonError)
        (JSFile.mk "image/png" 100 (Except.error (Thrown.err "read aborted"))) "add a hat"
      = Except.error (Thrown.err "Failed to read image file. It may be corrupted or in an unsupported format.")
    ∧ (Thrown.err "Failed to read image file. It may be corrupted or in an unsupported format."
        ≠ Thrown.err "An unknown error occurred while communicating with the AI service."
      ∧ Thrown.err "Failed to read image file. It may be corrupted or in an unsupported format."
        ≠ Thrown.err "The request was blocked for safety reasons. Please adjust your prompt and try again."
      ∧ Thrown.err "Failed to read image file. It may be corrupted or in an unsupported format."
        ≠ Thrown.err "The AI did not return an image. Please try a different prompt.") :=
  editImageWithAI_read_failure_distinct (some "k") (Except.error Thrown.nonError)
    (JSFile.mk "image/png" 100 (Except.error (Thrown.err "read aborted"))) "add a hat"
    (Thrown.err "read aborted") rfl rfl

/-- C10: whenever the edit call rejects (with the guards passed so that
the call actually runs), `handleSubmit` ends with `editedImageUrl` still
`null`, `isLoading` reset to `false`, and the runtime error set to the
thrown `Error`'s message — or the generic text for a non-`Error` value —
whatever the starting state was. -/
theorem handleSubmit_failed_submission_atomic (apiKey : Option String)
    (serviceResp : Except Thrown GenResponse) (file : JSFile) (prompt : String)
    (s : AppState) (e : Thrown)
    (hk : falsyKey apiKey = false) (hp : ¬(jsTrim prompt = ""))
    (he : editImageWithAI apiKey serviceResp file prompt = Except.error e) :
    handleSubmit apiKey serviceResp (some file) prompt s
      = AppState.mk none
          (some (match e with
            | Thrown.err m => m
            | Thrown.nonError => "An unknown error occurred."))
          false := by
  unfold handleSubmit
  rw [hk]
  simp only [Bool.not_false, Bool.not_true, if_neg hp, he]
  cases e <;> rfl

theorem handleSubmit_failed_submission_atomic_witness :
    handleSubmit (some "k") (Except.error (Thrown.err "fetch failed"))
        (some (JSFile.mk "image/png" 100 (Except.ok "data:image/png;base64,QUJD")))
        "add a hat"
        (AppState.mk (some "data:image/png;base64,old") (some "old error") true)
      = AppState.mk none (some "fetch failed") false :=
  handleSubmit_failed_submission_atomic (some "k")
    (Except.error (Thrown.err "fetch failed"))
    (JSFile.mk "image/png" 100 (Except.ok "data:image/png;base64,QUJD"))
    "add a hat"
    (AppState.mk (some "data:image/png;base64,old") (some "old error") true)
    (Thrown.err "fetch failed") rfl (by decide) rfl

/-- C8: the download filename is always `genz-hub-edit.<extension>`:
for every well-formed data URI (alphanumeric type, slash, subtype from
the accepted class, then `;base64,` and any payload) the extension is the
media-type subtype, and for every URI on which the media-type regex finds
no match the extension falls back to `png`. -/
theorem handleDownload_filename_spec :
    (∀ (ty sub : List Char) (d : String),
        ty ≠ [] → sub ≠ [] →
        (∀ c ∈ ty, isAlnum c = true) →
        (∀ c ∈ sub, isSubtypeChar c = true) →
        handleDownload (some ("data:" ++ String.mk ty ++ "/" ++ String.mk sub ++ ";base64," ++ d))
          = some ("genz-hub-edit." ++ String.mk sub))
  ∧ (∀ url : String, url ≠ "" → findMime url.data = none →
        handleDownload (some url) = some "genz-hub-edit.png") := by
  constructor
  · intro ty sub d hty hsub h1 h2
    exact handleDownload_data_uri ty sub d hty hsub h1 h2
  · intro url hne hfm
    simp only [handleDownload, hfm]
    rw [if_neg hne]
    rfl

theorem handleDownload_filename_spec_witness :
    handleDownload (some ("data:" ++ String.mk ['i', 'm', 'a', 'g', 'e'] ++ "/"
        ++ String.mk ['p', 'n', 'g'] ++ ";base64," ++ "QUJD"))
      = some ("genz-hub-edit." ++ String.mk ['p', 'n', 'g'])
    ∧ handleDownload (some "blob:object-url") = some "genz-hub-edit.png" :=
  ⟨handleDownload_filename_spec.1 ['i', 'm', 'a', 'g', 'e'] ['p', 'n', 'g'] "QUJD"
      (by decide) (by decide) (by decide) (by decide),
   handleDownload_filename_spec.2 "blob:object-url" (by decide) rfl⟩

/-- C9: the interpreter's URI constructor and the download adapter's
extension parser compose without loss: for a successful edit whose inline
media type is `image/<sub>` with `<sub>` nonempty and drawn from the
parser's accepted character class, `editImageWithAI` succeeds with the
data URI and `handleDownload` on that URI yields a filename ending
exactly in `.<sub>`. -/
theorem edit_download_round_trip (apiKey : Option String) (imageFile : JSFile)
    (prompt b64 : String) (response : GenResponse) (p : Part) (d : InlineData)
    (sub : List Char)
    (hk : falsyKey apiKey = false)
    (hr : fileToBase64 imageFile = Except.ok b64)
    (hp : firstPart response = some p)
    (hd : p.inlineData = some d)
    (hm : d.mimeType = "image/" ++ String.mk sub)
    (hsub : sub ≠ [])
    (hc : ∀ c ∈ sub, isSubtypeChar c = true) :
    editImageWithAI apiKey (Except.ok response) imageFile prompt
        = Except.ok ("data:" ++ d.mimeType ++ ";base64," ++ d.data)
      ∧ handleDownload (some ("data:" ++ d.mimeType ++ ";base64," ++ d.data))
        = some ("genz-hub-edit" ++ ("." ++ String.mk sub)) := by
  constructor
  · rw [editImageWithAI_interpret apiKey response imageFile prompt b64 hk hr]
    exact interpret_inline response p d hp hd
  · rw [hm]
    have hre : ("data:" ++ ("image/" ++ String.mk sub) ++ ";base64," ++ d.data)
        = ("data:" ++ String.mk ['i', 'm', 'a', 'g', 'e'] ++ "/" ++ String.mk sub
            ++ ";base64," ++ d.data) := by
      apply String.ext
      simp [String.data_append]
    have hre2 : ("genz-hub-edit" ++ ("." ++ String.mk sub))
        = ("genz-hub-edit." ++ String.mk sub) := by
      apply String.ext
      simp [String.data_append]
    rw [hre, hre2]
    exact handleDownload_data_uri ['i', 'm', 'a', 'g', 'e'] sub d.data
      (by decide) hsub (by decide) hc

theorem edit_download_round_trip_witness :
    editImageWithAI (some "k") (Except.ok (GenResponse.mk (some [Candidate.mk
        (some (Content.mk (some [Part.mk (some (InlineData.mk "QUJDRA" "image/png")) none])))
        none])))
        (JSFile.mk "image/png" 100 (Except.ok "data:image/png;base64,QUJD")) "add a hat"
      = Except.ok ("data:" ++ "image/png" ++ ";base64," ++ "QUJDRA")
    ∧ handleDownload (some ("data:" ++ "image/png" ++ ";base64," ++ "QUJDRA"))
      = some ("genz-hub-edit" ++ ("." ++ String.mk ['p', 'n', 'g'])) :=
  edit_download_round_trip (some "k")
    (JSFile.mk "image/png" 100 (Except.ok "data:image/png;base64,QUJD"))
    "add a hat" "QUJD"
    (GenResponse.mk (some [Candidate.mk
        (some (Content.mk (some [Part.mk (some (InlineData.mk "QUJDRA" "image/png")) none])))
        none]))
    (Part.mk (some (InlineData.mk "QUJDRA" "image/png")) none)
    (InlineData.mk "QUJDRA" "image/png")
    ['p', 'n', 'g'] rfl rfl rfl rfl (by decide) (by decide) (by decide)

example : falsyKey (some "k") = false := by decide
example : handleDownload (some "data:image/png;base64,AAA") = some "genz-hub-edit.png" := by rfl
example : handleDownload (some "data:image/svg+xml;base64,AAA") = some "genz-hub-edit.svg+xml" := by rfl
example : handleDownload (some "blob:whatever") = some "genz-hub-edit.png" := by rfl
example : handleDownload (some "data:imagepng;base64AAA") = some "genz-hub-edit.png" := by rfl
example :
    interpret (GenResponse.mk (some [Candidate.mk
      (some (Content.mk (some [Part.mk (some (InlineData.mk "AAA" "image/png")) none])))
      (some "SAFETY")]))
    = Except.ok "data:image/png;base64,AAA" := by rfl

end GenZEdit
